import Mathlib

/-!
Shallow embedding of `src/streamlit.py` (NYC Neighborhood Complaint Index
dashboard, Neo4j-backed) and proofs about its pipeline:
load → zip filter → aggregations → chart dispatch → CSV export → graph query,
followed by the manual session/driver close at the end of the script.

Modelling conventions:
* A pandas dataframe row of the working table is a `Record` with the five
  columns produced by `load_data_from_neo4j`.  `Incident_zip` is `Option
  String` (the script itself guards against nulls there with `.dropna()`);
  `Borough` is a plain `String` because the script normalises nulls with
  `fillna('UNKNOWN')` before any use; `Created_date` is the synthetic
  sequential date, represented as a day offset from 2023-01-01.
* Dates are day offsets from 2023-01-01 (which is a Sunday, matching the
  anchor of pandas' `'W'`, i.e. `W-SUN`, resampling rule).
* The Neo4j store is modelled relationally as the list of
  `(z:Zip)-[r:HAS_COMPLAINT]->(c:ComplaintType)` matches; each match record
  carries `z.code`, the borough `z` is `LOCATED_IN` (if any), `c.type`,
  `c.name` and `r.count`.
* pandas `value_counts` counts through an insertion-ordered hash table and
  sorts the counts with a stable descending sort, so it is modelled as
  first-occurrence-ordered counting followed by a stable merge sort.
-/

namespace NCI

/-- One row of the working table `df`, with the five columns produced by
`load_data_from_neo4j` (the four query aliases plus the synthesised
`Created_date`). -/
structure Record where
  Incident_zip : Option String
  Complaint_type : String
  Borough : String
  count : Nat
  Created_date : Nat
deriving DecidableEq, Repr

/-- `filtered_df = df[df['Incident_zip'] == selected_zip]` (line 70).
pandas elementwise `==` against the selected string is false on nulls, so a
row survives exactly when its zip is (non-null and) equal to the key. -/
def filtered_df (df : List Record) (selected_zip : String) : List Record :=
  df.filter (fun r => r.Incident_zip == some selected_zip)

/-- The distinct values of a list in order of first occurrence — the key
order produced by the insertion-ordered hash table behind pandas
`Series.unique` / `Series.value_counts`. -/
def firstDedup : List String → List String
  | [] => []
  | x :: xs => x :: firstDedup (xs.filter (fun y => y != x))
termination_by xs => xs.length
decreasing_by
  simp only [List.length_cons]
  exact Nat.lt_succ_of_le (List.length_filter_le _ _)

/-- The key/count pairs counted by `value_counts`, in first-occurrence
(pre-sort) order. -/
def countPairs (xs : List String) : List (String × Nat) :=
  (firstDedup xs).map (fun v => (v, xs.count v))

/-- `value_counts` on a string column (line 75): count each distinct value,
keys in first-occurrence order, then sort by count descending with a stable
sort (ties keep first-occurrence order). -/
def value_counts (xs : List String) : List (String × Nat) :=
  (countPairs xs).mergeSort (fun a b => b.2 ≤ a.2)

/-- `complaint_counts` (lines 75–76): `value_counts` of the
`Complaint_type` column of the filtered view (the later `reset_index` and
column renaming only relabel the two columns). -/
def complaint_counts (view : List Record) : List (String × Nat) :=
  value_counts (view.map Record.Complaint_type)

/-- `zip_codes = df['Incident_zip'].dropna().unique()` (line 66). -/
def zip_codes (df : List Record) : List String :=
  firstDedup (df.filterMap Record.Incident_zip)

/-- `sorted(zip_codes)` (line 67): the key set offered by the ZIP selector,
ascending. -/
def sorted_zip_codes (df : List Record) : List String :=
  (zip_codes df).mergeSort (fun a b => a ≤ b)

/-- Right edge (= pandas label) of the `'W'`-frequency resampling bin
containing day `d`.  `'W'` is `W-SUN`: weekly bins, right-closed and
right-labelled on Sundays; day 0 (2023-01-01) is a Sunday, so the label of
`d` is the least multiple of 7 that is `≥ d`.  This convention is fixed by
the library, not by the environment. -/
def binLabelW (d : Nat) : Nat := ((d + 6) / 7) * 7

/-- Minimum of the nonempty day list `d :: ds` (as the dataframe index
minimum used by `resample` to place the first bin). -/
def minDay (d : Nat) (ds : List Nat) : Nat := ds.foldr Nat.min d

/-- Maximum of the nonempty day list `d :: ds`. -/
def maxDay (d : Nat) (ds : List Nat) : Nat := ds.foldr Nat.max d

/-- `filtered_df.set_index('Created_date').resample('W').size()` (line 115):
one bin per week, from the bin of the earliest date to the bin of the
latest, consecutive (empty bins are kept, with size 0), each bin counting
the records whose `Created_date` falls in it. -/
def daily_trend : List Record → List (Nat × Nat)
  | [] => []
  | r :: rs =>
    let ds := (r :: rs).map Record.Created_date
    let lo := binLabelW (minDay r.Created_date (rs.map Record.Created_date))
    let hi := binLabelW (maxDay r.Created_date (rs.map Record.Created_date))
    (List.range ((hi - lo) / 7 + 1)).map
      (fun i => (lo + 7 * i, (ds.filter (fun d => binLabelW d == lo + 7 * i)).length))

/-- The five chart shapes of the dashboard. -/
inductive ChartKind where
  | bar
  | pie
  | sunburst
  | trend
  | topBoroughs
deriving DecidableEq, Repr

/-- The five strings offered by the visualization selectbox (lines 81–84). -/
def viz_options : List String :=
  ["Bar Chart", "Pie Chart", "Sunburst Chart", "Complaint Trend Over Time",
   "Top Boroughs (Overall)"]

/-- The `if viz_option == ... / elif ...` chain (lines 86–134): each of the
five known options renders its chart; any other string falls through — the
chain has no final `else`, so nothing is rendered and nothing is raised
(`none`). -/
def chartDispatch (choice : String) : Option ChartKind :=
  if choice = "Bar Chart" then some ChartKind.bar
  else if choice = "Pie Chart" then some ChartKind.pie
  else if choice = "Sunburst Chart" then some ChartKind.sunburst
  else if choice = "Complaint Trend Over Time" then some ChartKind.trend
  else if choice = "Top Boroughs (Overall)" then some ChartKind.topBoroughs
  else none

/-- One `(z:Zip)-[r:HAS_COMPLAINT]->(c:ComplaintType)` match in the Neo4j
store: `z.code`, the borough `z` is `LOCATED_IN` (if any), `c.type`,
`c.name`, `r.count`. -/
structure HasComplaintEdge where
  zipCode : Option String
  zipBorough : Option String
  ctype : String
  cname : String
  count : Nat
deriving DecidableEq, Repr

/-- `get_zip_graph_data` (lines 50–58): the parameterized Cypher query
matches `(z:Zip {code: $zip})-[r:HAS_COMPLAINT]->(c:ComplaintType)` — the
edges whose zip node has code `selected_zip` — and returns the rows
`(z.code, c.name, r.count)` with `ORDER BY count DESC`.  For every matched
edge `z.code` is `selected_zip` itself. -/
def get_zip_graph_data (store : List HasComplaintEdge) (selected_zip : String) :
    List (String × String × Nat) :=
  ((store.filter (fun e => e.zipCode == some selected_zip)).map
      (fun e => (selected_zip, e.cname, e.count))).mergeSort
    (fun a b => b.2.2 ≤ a.2.2)

/-- Untyped cell of a pandas dataframe built from Neo4j result records. -/
inductive Value where
  | str : String → Value
  | int : Nat → Value
  | null : Value
deriving DecidableEq, Repr

/-- One dataframe row as the association list of column name / cell. -/
abbrev Row := List (String × Value)

/-- One result record of the load query (lines 26–33): the four `RETURN`
aliases; `Borough` is null when the `OPTIONAL MATCH` found no borough, and
`Incident_zip` is null when the zip node has no `code` property. -/
def queryRow (e : HasComplaintEdge) : Row :=
  [("Incident_zip", match e.zipCode with | some z => Value.str z | none => Value.null),
   ("Complaint_type", Value.str e.ctype),
   ("Borough", match e.zipBorough with | some b => Value.str b | none => Value.null),
   ("count", Value.int e.count)]

/-- Column list of `pd.DataFrame(records)` (line 37): the union of the
records' keys in first-seen order. -/
def dfColumns (rows : List Row) : List String :=
  rows.foldl (fun acc r => acc ++ (r.map Prod.fst).filter (fun k => !acc.contains k)) []

/-- `df['Borough'] = df['Borough'].fillna('UNKNOWN')` (line 40). -/
def fillnaBorough (r : Row) : Row :=
  r.map (fun kv =>
    if kv.1 = "Borough" ∧ kv.2 = Value.null then ("Borough", Value.str "UNKNOWN") else kv)

/-- `df['Created_date'] = pd.date_range(start='2023-01-01', periods=len(df),
freq='D')` (line 43): appends a `Created_date` column whose value in row
`i` is day `i` (day offsets from 2023-01-01). -/
def addCreatedDate (rows : List Row) : List Row :=
  rows.mapIdx (fun i r => r ++ [("Created_date", Value.int i)])

/-- `load_data_from_neo4j` (lines 24–45): run the load query over the
store, fill missing boroughs, synthesise the sequential `Created_date`. -/
def load_data_from_neo4j (store : List HasComplaintEdge) : List Row :=
  addCreatedDate ((store.map queryRow).map fillnaBorough)

/-- The five column names of the working table, which are also the header
written by `filtered_df.to_csv(index=False)` (line 142). -/
def csvHeader : List String :=
  ["Incident_zip", "Complaint_type", "Borough", "count", "Created_date"]

/-- pandas renders a null cell as an empty field in CSV output. -/
def optCell (o : Option String) : String := o.getD ""

/-- `filtered_df.to_csv(index=False)` (line 142) at cell granularity:
header row, then one row of rendered cells per record. -/
def to_csv (view : List Record) : List (List String) :=
  csvHeader ::
    view.map (fun r =>
      [optCell r.Incident_zip, r.Complaint_type, r.Borough,
       toString r.count, toString r.Created_date])

/-- The error taxonomy of the spec's Data Source Adapter file variant. -/
inductive DataLoadError where
  | missingFile
  | schemaMismatch
deriving DecidableEq, Repr

/-- The four columns of the spec's tabular file interface (§6). -/
def fileHeader : List String :=
  ["Incident_zip", "Complaint_type", "Borough", "Created_date"]

/-- Modelled from the spec: the Data Source Adapter's *file variant* is not
part of `src/` (only the graph-backed script is).  Per §4.1 it "parses a
tabular file with a known schema (columns: postal code, complaint type,
borough, created date)" and "fails with `DataLoadError` if the file is
missing or columns don't match". -/
def load_file_variant (csv : List (List String)) :
    Except DataLoadError (List (List String)) :=
  match csv with
  | [] => Except.error DataLoadError.missingFile
  | header :: rows =>
    if header = fileHeader then Except.ok rows
    else Except.error DataLoadError.schemaMismatch

/-- Observable resource events of one run of the script. -/
inductive Event where
  | connect
  | loadData
  | renderUI
  | queryGraph
  | closeSession
  | closeDriver
deriving DecidableEq, Repr

/-- Which of the script's two fallible external calls raises in a run. -/
structure RunFaults where
  loadRaises : Bool
  queryRaises : Bool
deriving DecidableEq, Repr

/-- Straight-line trace of `src/streamlit.py`: connect (lines 18–19), load
(line 47), render charts/table/download (lines 60–145), graph query
(line 150), then the manual closes (lines 169–170).  An uncaught exception
from a fallible call ends the run at that point: the script has no
try/finally around the closes. -/
def script_trace (f : RunFaults) : List Event :=
  [Event.connect] ++
    (if f.loadRaises then [] else
      [Event.loadData, Event.renderUI] ++
        (if f.queryRaises then [] else
          [Event.queryGraph, Event.closeSession, Event.closeDriver]))

/-- Sample rows following the spec's scenario: three records for zip
"10001" (two "Noise", one "Illegal Parking"), two for "10002". -/
def sampleTable : List Record :=
  [ ⟨some "10001", "Noise", "MANHATTAN", 2, 0⟩,
    ⟨some "10001", "Noise", "MANHATTAN", 2, 1⟩,
    ⟨some "10001", "Illegal Parking", "MANHATTAN", 1, 2⟩,
    ⟨some "10002", "Noise", "MANHATTAN", 5, 3⟩,
    ⟨some "10002", "Rodent", "MANHATTAN", 4, 4⟩ ]

/-- Sample rows with a tie: "Noise" and "Rodent" both occur twice, "Noise"
first. -/
def tieTable : List Record :=
  [ ⟨some "10001", "Noise", "MANHATTAN", 1, 0⟩,
    ⟨some "10001", "Noise", "MANHATTAN", 1, 1⟩,
    ⟨some "10001", "Rodent", "MANHATTAN", 1, 2⟩,
    ⟨some "10001", "Rodent", "MANHATTAN", 1, 3⟩,
    ⟨some "10001", "Illegal Parking", "MANHATTAN", 1, 4⟩ ]

/-- Two records fifteen days apart: their date range spans the four weekly
bins labelled 0, 7, 14, 21, two of which hold no record. -/
def gapTable : List Record :=
  [ ⟨some "10001", "Noise", "MANHATTAN", 1, 0⟩,
    ⟨some "10001", "Rodent", "MANHATTAN", 1, 15⟩ ]

/-- A sample store: two HAS_COMPLAINT edges for "10001", one for "10002",
none for "10003"; the "10002" zip node has no borough. -/
def sampleStore : List HasComplaintEdge :=
  [ ⟨some "10001", some "MANHATTAN", "Noise", "Noise", 7⟩,
    ⟨some "10001", some "MANHATTAN", "Rodent", "Rodent", 9⟩,
    ⟨some "10002", none, "Noise", "Noise", 4⟩ ]

/-! ## Helper lemmas -/

theorem mem_firstDedup (a : String) : ∀ xs : List String, a ∈ firstDedup xs ↔ a ∈ xs
  | [] => by rw [firstDedup]
  | x :: xs => by
    rw [firstDedup]
    by_cases hax : a = x
    · subst hax; simp
    · simp only [List.mem_cons, hax, false_or]
      rw [mem_firstDedup a (xs.filter (fun y => y != x))]
      simp [hax]
termination_by xs => xs.length
decreasing_by
  simp only [List.length_cons]
  exact Nat.lt_succ_of_le (List.length_filter_le _ _)

theorem nodup_firstDedup : ∀ xs : List String, (firstDedup xs).Nodup
  | [] => by rw [firstDedup]; exact List.nodup_nil
  | x :: xs => by
    rw [firstDedup]
    refine List.Nodup.cons (fun hx => ?_) (nodup_firstDedup (xs.filter (fun y => y != x)))
    have := (mem_firstDedup x _).1 hx
    simp at this
termination_by xs => xs.length
decreasing_by
  simp only [List.length_cons]
  exact Nat.lt_succ_of_le (List.length_filter_le _ _)

/-- `firstDedup` is a permutation of Mathlib's `dedup` (both are the
duplicate-free list of values, in different orders). -/
theorem firstDedup_perm_dedup (xs : List String) : (firstDedup xs).Perm xs.dedup := by
  rw [List.perm_ext_iff_of_nodup (nodup_firstDedup xs) xs.nodup_dedup]
  intro a
  rw [mem_firstDedup, List.mem_dedup]

/-- The counts reported by `value_counts` sum to the length of the column:
sorting permutes the count list, and summing each distinct value's
multiplicity recovers the length. -/
theorem sum_value_counts (xs : List String) :
    ((value_counts xs).map Prod.snd).sum = xs.length := by
  have h1 : ((value_counts xs).map Prod.snd).sum
      = ((countPairs xs).map Prod.snd).sum :=
    ((List.mergeSort_perm _ _).map Prod.snd).sum_eq
  have h2 : ((firstDedup xs).map (fun v => xs.count v)).sum
      = (xs.dedup.map (fun v => xs.count v)).sum :=
    ((firstDedup_perm_dedup xs).map _).sum_eq
  rw [h1, countPairs, List.map_map]
  simpa [Function.comp] using h2.trans (List.sum_map_count_dedup_eq_length xs)

theorem value_counts_perm (xs : List String) :
    (value_counts xs).Perm (countPairs xs) :=
  List.mergeSort_perm _ _

theorem value_counts_sorted (xs : List String) :
    (value_counts xs).Sorted (fun a b => b.2 ≤ a.2) := by
  have h := @List.sorted_mergeSort (String × Nat) (fun a b => decide (b.2 ≤ a.2))
    (fun a b c hab hbc => by
      simp only [decide_eq_true_eq] at *
      omega)
    (fun a b => by
      simp only [Bool.or_eq_true, decide_eq_true_eq]
      exact Nat.le_total b.2 a.2)
    (countPairs xs)
  exact h.imp (fun hab => of_decide_eq_true hab)

/-- Stability of the sort behind `value_counts`: any two pairs already in
first-occurrence order whose counts are weakly decreasing (in particular,
tied counts) stay in that relative order in the output. -/
theorem value_counts_stable (xs : List String) (a b : String × Nat)
    (hle : b.2 ≤ a.2) (hsub : [a, b].Sublist (countPairs xs)) :
    [a, b].Sublist (value_counts xs) := by
  refine List.pair_sublist_mergeSort
    (fun a b c hab hbc => by
      simp only [decide_eq_true_eq] at *
      omega)
    (fun a b => by
      simp only [Bool.or_eq_true, decide_eq_true_eq]
      exact Nat.le_total b.2 a.2)
    (by simpa using hle) hsub

/-- A row keeps its key list through `fillnaBorough`. -/
theorem keys_fillnaBorough (r : Row) : (fillnaBorough r).map Prod.fst = r.map Prod.fst := by
  induction r with
  | nil => rfl
  | cons kv rest ih =>
    by_cases h : kv.1 = "Borough" ∧ kv.2 = Value.null
    · simp [fillnaBorough, h, h.1] at *
      exact ih
    · simp [fillnaBorough, h] at *
      exact ih

/-- The key list of a loaded row is exactly the five column names. -/
theorem keys_loaded_row (e : HasComplaintEdge) (v : Value) :
    ((fillnaBorough (queryRow e)) ++ [("Created_date", v)]).map Prod.fst = csvHeader := by
  rw [List.map_append, keys_fillnaBorough]
  rfl

/-- `dfColumns` of a nonempty list of rows that all share the key list `K`
is `K` itself. -/
theorem dfColumns_uniform (K : List String) (rows : List Row)
    (hK : ∀ r ∈ rows, r.map Prod.fst = K) (hne : rows ≠ []) :
    dfColumns rows = K := by
  have hstep : ∀ r : Row, r.map Prod.fst = K →
      K ++ ((r.map Prod.fst).filter (fun k => !K.contains k)) = K := by
    intro r hr
    rw [hr]
    have : K.filter (fun k => !K.contains k) = [] := by
      rw [List.filter_eq_nil_iff]
      intro k hk
      simp [hk]
    rw [this, List.append_nil]
  have hfold : ∀ rest : List Row, (∀ r ∈ rest, r.map Prod.fst = K) →
      rest.foldl (fun acc r => acc ++ (r.map Prod.fst).filter (fun k => !acc.contains k)) K
        = K := by
    intro rest
    induction rest with
    | nil => intro _; rfl
    | cons r rest ih =>
      intro hmem
      rw [List.foldl_cons, hstep r (hmem r (List.mem_cons_self r rest))]
      exact ih (fun s hs => hmem s (List.mem_cons_of_mem r hs))
  match rows, hne with
  | r :: rest, _ =>
    rw [dfColumns, List.foldl_cons]
    have h0 : ([] : List String) ++ ((r.map Prod.fst).filter (fun k => !([] : List String).contains k)) = K := by
      simp [hK r (List.mem_cons_self r rest)]
    rw [h0]
    exact hfold rest (fun s hs => hK s (List.mem_cons_of_mem r hs))

/-- Looking up the `count` cell of a loaded row returns the relationship
weight, whatever the zip, borough and appended date cells are. -/
theorem lookup_count_loaded_row (e : HasComplaintEdge) (l : Row) :
    List.lookup "count" (fillnaBorough (queryRow e) ++ l) = some (Value.int e.count) := by
  rcases e with ⟨zc, zb, ct, cn, c⟩
  cases zb <;> rfl

/-- `minDay` is a lower bound of `d :: ds`. -/
theorem minDay_le (d : Nat) (ds : List Nat) :
    minDay d ds ≤ d ∧ ∀ x ∈ ds, minDay d ds ≤ x := by
  induction ds with
  | nil => exact ⟨Nat.le_refl d, by simp⟩
  | cons x xs ih =>
    rw [minDay, List.foldr_cons]
    refine ⟨Nat.le_trans (Nat.min_le_right _ _) ih.1, fun y hy => ?_⟩
    rcases List.mem_cons.1 hy with rfl | hy
    · exact Nat.min_le_left _ _
    · exact Nat.le_trans (Nat.min_le_right _ _) (ih.2 y hy)

/-- `minDay` is attained by an element of `d :: ds`. -/
theorem minDay_mem (d : Nat) (ds : List Nat) :
    minDay d ds = d ∨ minDay d ds ∈ ds := by
  induction ds with
  | nil => exact Or.inl rfl
  | cons x xs ih =>
    rw [minDay, List.foldr_cons]
    rcases Nat.le_total x (xs.foldr Nat.min d) with h | h
    · have hmin : x.min (xs.foldr Nat.min d) = x := Nat.min_eq_left h
      rw [hmin]
      exact Or.inr (List.mem_cons_self x xs)
    · have hmin : x.min (xs.foldr Nat.min d) = xs.foldr Nat.min d := Nat.min_eq_right h
      rw [hmin]
      rcases ih with h2 | h2
      · exact Or.inl h2
      · exact Or.inr (List.mem_cons_of_mem x h2)

/-- `maxDay` is an upper bound of `d :: ds`. -/
theorem le_maxDay (d : Nat) (ds : List Nat) :
    d ≤ maxDay d ds ∧ ∀ x ∈ ds, x ≤ maxDay d ds := by
  induction ds with
  | nil => exact ⟨Nat.le_refl d, by simp⟩
  | cons x xs ih =>
    rw [maxDay, List.foldr_cons]
    refine ⟨Nat.le_trans ih.1 (Nat.le_max_right _ _), fun y hy => ?_⟩
    rcases List.mem_cons.1 hy with rfl | hy
    · exact Nat.le_max_left _ _
    · exact Nat.le_trans (ih.2 y hy) (Nat.le_max_right _ _)

/-- `maxDay` is attained by an element of `d :: ds`. -/
theorem maxDay_mem (d : Nat) (ds : List Nat) :
    maxDay d ds = d ∨ maxDay d ds ∈ ds := by
  induction ds with
  | nil => exact Or.inl rfl
  | cons x xs ih =>
    rw [maxDay, List.foldr_cons]
    rcases Nat.le_total (xs.foldr Nat.max d) x with h | h
    · have hmax : x.max (xs.foldr Nat.max d) = x := Nat.max_eq_left h
      rw [hmax]
      exact Or.inr (List.mem_cons_self x xs)
    · have hmax : x.max (xs.foldr Nat.max d) = xs.foldr Nat.max d := Nat.max_eq_right h
      rw [hmax]
      rcases ih with h2 | h2
      · exact Or.inl h2
      · exact Or.inr (List.mem_cons_of_mem x h2)

/-! ## Claim theorems -/

/-- Claim C1: the Selection Filter returns exactly the records whose postal
code equals the selected key; its size is bounded by the table's; a key
absent from the table yields an empty view rather than an error. -/
theorem filtered_df_spec (df : List Record) (k : String) :
    (∀ r : Record, r ∈ filtered_df df k ↔ r ∈ df ∧ r.Incident_zip = some k) ∧
    (filtered_df df k).length ≤ df.length ∧
    (some k ∉ df.map Record.Incident_zip → filtered_df df k = []) := by
  refine ⟨fun r => ?_, List.length_filter_le _ _, fun hk => ?_⟩
  · simp [filtered_df]
  · rw [filtered_df, List.filter_eq_nil_iff]
    intro r hr
    simp only [beq_iff_eq]
    intro he
    exact hk (he ▸ List.mem_map_of_mem Record.Incident_zip hr)

/-- Witness for C1 at the spec's scenario: the absent key "99999" yields an
empty view, and membership behaves as stated on a concrete row. -/
theorem filtered_df_spec_witness :
    filtered_df sampleTable "99999" = [] ∧
    (Record.mk (some "10002") "Noise" "MANHATTAN" 5 3 ∈ filtered_df sampleTable "10002" ↔
      Record.mk (some "10002") "Noise" "MANHATTAN" 5 3 ∈ sampleTable ∧
        (Record.mk (some "10002") "Noise" "MANHATTAN" 5 3).Incident_zip = some "10002") :=
  ⟨(filtered_df_spec sampleTable "99999").2.2 (by decide),
   (filtered_df_spec sampleTable "10002").1 _⟩

/-- Claim C2: for every filtered view, the `value_counts` aggregation over
`Complaint_type` produces counts that sum exactly to the view's size. -/
theorem complaint_counts_sum (df : List Record) (k : String) :
    ((complaint_counts (filtered_df df k)).map Prod.snd).sum
      = (filtered_df df k).length := by
  rw [complaint_counts, sum_value_counts, List.length_map]

/-- Witness for C2 at the spec's scenario table and key "10001". -/
theorem complaint_counts_sum_witness :
    ((complaint_counts (filtered_df sampleTable "10001")).map Prod.snd).sum
      = (filtered_df sampleTable "10001").length :=
  complaint_counts_sum sampleTable "10001"

/-- Claim C7: `complaint_counts` returns exactly the category/count pairs
(a permutation of the first-occurrence-ordered counts), sorted by count
descending, and ties keep first-seen category order (stability), so the
output is a deterministic function of the view. -/
theorem complaint_counts_ordered (view : List Record) :
    (complaint_counts view).Perm (countPairs (view.map Record.Complaint_type)) ∧
    (complaint_counts view).Sorted (fun a b => b.2 ≤ a.2) ∧
    (∀ a b : String × Nat, a.2 = b.2 →
      [a, b].Sublist (countPairs (view.map Record.Complaint_type)) →
      [a, b].Sublist (complaint_counts view)) :=
  ⟨value_counts_perm _, value_counts_sorted _,
   fun a b hab hsub => value_counts_stable _ a b (Nat.le_of_eq hab.symm) hsub⟩

unseal firstDedup in
/-- Witness for C7: in `tieTable`, "Noise" and "Rodent" tie at count 2 and
"Noise" is seen first, so "Noise" precedes "Rodent" in the output. -/
theorem complaint_counts_ordered_witness :
    [("Noise", 2), ("Rodent", 2)].Sublist (complaint_counts tieTable) :=
  (complaint_counts_ordered tieTable).2.2 ("Noise", 2) ("Rodent", 2) rfl
    (by decide)

/-- Counterexample to claim C4 as stated: "Histogram" is not one of the
five options, yet the dispatch chain takes no branch and raises nothing —
it silently renders nothing (`none`) instead of failing. -/
theorem chartDispatch_unknown_counterexample :
    "Histogram" ∉ viz_options ∧ chartDispatch "Histogram" = none := by
  constructor
  · decide
  · rfl

/-- Claim C4 (amended): every visualization choice outside the five
enumerated options falls through the `if/elif` chain silently — no chart is
rendered and no error is raised, because the chain has no `else` branch. -/
theorem chartDispatch_unknown (choice : String) (h : choice ∉ viz_options) :
    chartDispatch choice = none := by
  simp only [viz_options, List.mem_cons, List.mem_singleton, not_or] at h
  obtain ⟨h1, h2, h3, h4, h5, -⟩ := h
  simp [chartDispatch, h1, h2, h3, h4, h5]

/-- Witness for the amended C4 at the concrete choice "Histogram". -/
theorem chartDispatch_unknown_witness : chartDispatch "Histogram" = none :=
  chartDispatch_unknown "Histogram" (by decide)

/-- Counterexample to claim C8 as stated: on the run where loading the data
raises (e.g. the Neo4j transaction fails), the script terminates before
reaching lines 169–170, so neither the session nor the driver is closed. -/
theorem script_trace_counterexample :
    Event.closeSession ∉ script_trace (RunFaults.mk true false) ∧
    Event.closeDriver ∉ script_trace (RunFaults.mk true false) := by
  decide

/-- Claim C8 (amended): the session and driver are closed exactly on the
fault-free run; on a load or query failure the script exits without
closing them (the closes are plain trailing statements, not a finalizer). -/
theorem script_trace_close (f : RunFaults) :
    (Event.closeSession ∈ script_trace f ∧ Event.closeDriver ∈ script_trace f) ↔
      (f.loadRaises = false ∧ f.queryRaises = false) := by
  obtain ⟨l, q⟩ := f
  cases l <;> cases q <;> decide

/-- Witness for the amended C8 at the fault-free run. -/
theorem script_trace_close_witness :
    Event.closeSession ∈ script_trace (RunFaults.mk false false) ∧
    Event.closeDriver ∈ script_trace (RunFaults.mk false false) :=
  (script_trace_close (RunFaults.mk false false)).mpr ⟨rfl, rfl⟩

/-- Claim C5: every record's (non-null) postal code appears in the ZIP
selector's key set, and that key set is exactly the table's postal codes
deduplicated and sorted ascending. -/
theorem sorted_zip_codes_spec (df : List Record) :
    (∀ r ∈ df, ∀ z : String, r.Incident_zip = some z → z ∈ sorted_zip_codes df) ∧
    (sorted_zip_codes df).Sorted (fun a b : String => a ≤ b) ∧
    (sorted_zip_codes df).Nodup ∧
    (∀ z : String, z ∈ sorted_zip_codes df ↔ some z ∈ df.map Record.Incident_zip) := by
  have hmem : ∀ z : String,
      z ∈ sorted_zip_codes df ↔ some z ∈ df.map Record.Incident_zip := by
    intro z
    rw [sorted_zip_codes, List.mem_mergeSort, zip_codes, mem_firstDedup,
      List.mem_filterMap, List.mem_map]
  refine ⟨?_, ?_, ?_, hmem⟩
  · intro r hr z hz
    exact (hmem z).2 (hz ▸ List.mem_map_of_mem Record.Incident_zip hr)
  · have h := @List.sorted_mergeSort String (fun a b => decide (a ≤ b))
      (fun a b c hab hbc =>
        decide_eq_true (le_trans (of_decide_eq_true hab) (of_decide_eq_true hbc)))
      (fun a b => by
        simp only [Bool.or_eq_true, decide_eq_true_eq]
        exact le_total a b)
      (zip_codes df)
    exact h.imp (fun hab => of_decide_eq_true hab)
  · exact (List.mergeSort_perm _ _).symm.nodup (nodup_firstDedup _)

/-- Witness for C5: in the scenario table, the first record's code "10001"
is offered by the selector. -/
theorem sorted_zip_codes_spec_witness :
    "10001" ∈ sorted_zip_codes sampleTable :=
  (sorted_zip_codes_spec sampleTable).1
    (Record.mk (some "10001") "Noise" "MANHATTAN" 2 0) (by decide) "10001" rfl

/-- Claim C3: `get_zip_graph_data` returns exactly the `(zip, complaint,
count)` rows of the HAS_COMPLAINT relationships of the selected key,
ordered by count descending, and an empty list — not an error — when the
store holds no relationship for that key. -/
theorem get_zip_graph_data_spec (store : List HasComplaintEdge) (k : String) :
    (∀ t : String × String × Nat,
      t ∈ get_zip_graph_data store k ↔
        ∃ e ∈ store, e.zipCode = some k ∧ t = (k, e.cname, e.count)) ∧
    (get_zip_graph_data store k).Sorted (fun a b => b.2.2 ≤ a.2.2) ∧
    ((∀ e ∈ store, e.zipCode ≠ some k) → get_zip_graph_data store k = []) := by
  refine ⟨fun t => ?_, ?_, fun h => ?_⟩
  · rw [get_zip_graph_data, List.mem_mergeSort, List.mem_map]
    constructor
    · rintro ⟨e, he, rfl⟩
      rw [List.mem_filter] at he
      exact ⟨e, he.1, by simpa using he.2, rfl⟩
    · rintro ⟨e, he, hz, rfl⟩
      exact ⟨e, List.mem_filter.2 ⟨he, by simpa using hz⟩, rfl⟩
  · have h := @List.sorted_mergeSort (String × String × Nat)
      (fun a b => decide (b.2.2 ≤ a.2.2))
      (fun a b c hab hbc => by
        simp only [decide_eq_true_eq] at *
        omega)
      (fun a b => by
        simp only [Bool.or_eq_true, decide_eq_true_eq]
        exact Nat.le_total b.2.2 a.2.2)
      ((store.filter (fun e => e.zipCode == some k)).map
        (fun e => (k, e.cname, e.count)))
    exact h.imp (fun hab => of_decide_eq_true hab)
  · have hnil : store.filter (fun e => e.zipCode == some k) = [] := by
      rw [List.filter_eq_nil_iff]
      intro e he
      simpa using h e he
    rw [get_zip_graph_data, hnil]
    simp

/-- Witness for C3: "10003" has no HAS_COMPLAINT relationship in the sample
store, and the query returns the empty list rather than failing. -/
theorem get_zip_graph_data_spec_witness :
    get_zip_graph_data sampleStore "10003" = [] :=
  (get_zip_graph_data_spec sampleStore "10003").2.2 (by decide)

/-- Counterexample to claim C9 as stated: re-parsing the export of the
nonempty filtered view for "10001" with the spec's file variant fails with
a schema mismatch (the export carries the extra `count` column), so no
round-tripped table is produced at all. -/
theorem csv_roundtrip_counterexample :
    (filtered_df sampleTable "10001").length = 3 ∧
    load_file_variant (to_csv (filtered_df sampleTable "10001"))
      = Except.error DataLoadError.schemaMismatch := by
  exact ⟨rfl, rfl⟩

/-- Claim C9 (amended): the delimited export of any filtered view carries
the five working-table columns (including `count`), so re-parsing it with
the Data Source Adapter's four-column file variant fails with
`DataLoadError` (schema mismatch) instead of yielding the original view. -/
theorem csv_roundtrip_schema (view : List Record) :
    (to_csv view).head? = some csvHeader ∧
    load_file_variant (to_csv view) = Except.error DataLoadError.schemaMismatch := by
  refine ⟨rfl, ?_⟩
  rw [to_csv, load_file_variant]
  rw [if_neg (by decide)]

/-- Witness for the amended C9 at the full scenario table. -/
theorem csv_roundtrip_schema_witness :
    load_file_variant (to_csv sampleTable) = Except.error DataLoadError.schemaMismatch :=
  (csv_roundtrip_schema sampleTable).2

/-- Claim C10: for every nonempty store, the table built by
`load_data_from_neo4j` has exactly the five columns `Incident_zip`,
`Complaint_type`, `Borough`, `count`, `Created_date`, and the `count`
column holds the HAS_COMPLAINT relationship weight of the corresponding
row. -/
theorem load_data_from_neo4j_columns (store : List HasComplaintEdge) (h : store ≠ []) :
    dfColumns (load_data_from_neo4j store) = csvHeader ∧
    ∀ i : Nat,
      ((load_data_from_neo4j store)[i]?.bind (fun r => List.lookup "count" r))
        = store[i]?.map (fun e => Value.int e.count) := by
  constructor
  · refine dfColumns_uniform csvHeader _ ?_ ?_
    · intro r hr
      rw [load_data_from_neo4j, addCreatedDate] at hr
      obtain ⟨i, hi, rfl⟩ := List.exists_of_mem_mapIdx hr
      have hmem : ((store.map queryRow).map fillnaBorough)[i]
          ∈ (store.map queryRow).map fillnaBorough := List.getElem_mem hi
      obtain ⟨sq, hsq, heq⟩ := List.mem_map.1 hmem
      rw [← heq]
      obtain ⟨e, he, rfl⟩ := List.mem_map.1 hsq
      exact keys_loaded_row e _
    · rw [load_data_from_neo4j, addCreatedDate]
      simp only [ne_eq, List.mapIdx_eq_nil_iff, List.map_eq_nil_iff]
      exact h
  · intro i
    rw [load_data_from_neo4j, addCreatedDate]
    rw [List.mapIdx_eq_iff.mp rfl i, List.getElem?_map, List.getElem?_map]
    cases hstore : store[i]?
    · rfl
    · simp [lookup_count_loaded_row]

/-- Claim C6: on a non-empty view, the weekly resampling emits exactly the
consecutive week labels from the week of the earliest date to the week of
the latest (no gaps; the week convention `binLabelW` is a fixed function),
each label paired with the number of records of that week — zero-record
weeks included — and `minDay`/`maxDay` really are the minimum and maximum
of the view's dates. -/
theorem daily_trend_weekly (r : Record) (rs : List Record) :
    ((daily_trend (r :: rs)).map Prod.fst
      = (List.range ((binLabelW (maxDay r.Created_date (rs.map Record.Created_date))
            - binLabelW (minDay r.Created_date (rs.map Record.Created_date))) / 7 + 1)).map
          (fun i => binLabelW (minDay r.Created_date (rs.map Record.Created_date)) + 7 * i)) ∧
    (∀ p ∈ daily_trend (r :: rs),
      p.2 = (((r :: rs).map Record.Created_date).filter
        (fun d => binLabelW d == p.1)).length) ∧
    (∀ w : Nat, 7 ∣ w →
      binLabelW (minDay r.Created_date (rs.map Record.Created_date)) ≤ w →
      w ≤ binLabelW (maxDay r.Created_date (rs.map Record.Created_date)) →
      ∃ c : Nat, (w, c) ∈ daily_trend (r :: rs)) ∧
    ((minDay r.Created_date (rs.map Record.Created_date) ∈ (r :: rs).map Record.Created_date ∧
      ∀ d ∈ (r :: rs).map Record.Created_date,
        minDay r.Created_date (rs.map Record.Created_date) ≤ d) ∧
     (maxDay r.Created_date (rs.map Record.Created_date) ∈ (r :: rs).map Record.Created_date ∧
      ∀ d ∈ (r :: rs).map Record.Created_date,
        d ≤ maxDay r.Created_date (rs.map Record.Created_date))) := by
  refine ⟨?_, ?_, ?_, ⟨?_, ?_⟩, ?_, ?_⟩
  · rw [daily_trend, List.map_map]
    rfl
  · intro p hp
    rw [daily_trend] at hp
    obtain ⟨i, -, rfl⟩ := List.mem_map.1 hp
    rfl
  · intro w h7 hlo hhi
    rw [daily_trend]
    refine ⟨(((r :: rs).map Record.Created_date).filter (fun d => binLabelW d == w)).length,
      List.mem_map.2 ⟨(w - binLabelW (minDay r.Created_date (rs.map Record.Created_date))) / 7,
        List.mem_range.2 ?_, ?_⟩⟩
    · simp only [binLabelW] at *
      omega
    · have heq : binLabelW (minDay r.Created_date (rs.map Record.Created_date))
          + 7 * ((w - binLabelW (minDay r.Created_date (rs.map Record.Created_date))) / 7) = w := by
        simp only [binLabelW] at *
        omega
      rw [heq]
  · rcases minDay_mem r.Created_date (rs.map Record.Created_date) with h | h
    · rw [List.map_cons, h]
      exact List.mem_cons_self _ _
    · exact List.mem_cons_of_mem _ h
  · intro d hd
    rcases List.mem_cons.1 hd with rfl | hd
    · exact (minDay_le _ _).1
    · exact (minDay_le _ _).2 d hd
  · rcases maxDay_mem r.Created_date (rs.map Record.Created_date) with h | h
    · rw [List.map_cons, h]
      exact List.mem_cons_self _ _
    · exact List.mem_cons_of_mem _ h
  · intro d hd
    rcases List.mem_cons.1 hd with rfl | hd
    · exact (le_maxDay _ _).1
    · exact (le_maxDay _ _).2 d hd

/-- Witness for C6 at `gapTable` (dates 0 and 15, weeks 0 and 21): the
empty intermediate week 7 still gets a point, and its count is the number
(zero) of records falling in it. -/
theorem daily_trend_weekly_witness :
    (∃ c : Nat, (7, c) ∈ daily_trend gapTable) ∧
    (∀ p ∈ daily_trend gapTable,
      p.2 = ((gapTable.map Record.Created_date).filter
        (fun d => binLabelW d == p.1)).length) :=
  ⟨(daily_trend_weekly (Record.mk (some "10001") "Noise" "MANHATTAN" 1 0)
      [Record.mk (some "10001") "Rodent" "MANHATTAN" 1 15]).2.2.1 7
      (by decide) (by decide) (by decide),
   (daily_trend_weekly (Record.mk (some "10001") "Noise" "MANHATTAN" 1 0)
      [Record.mk (some "10001") "Rodent" "MANHATTAN" 1 15]).2.1⟩

/-- Witness for C10 at the sample store: three matches, five columns, and
the count cells are the three relationship weights. -/
theorem load_data_from_neo4j_columns_witness :
    dfColumns (load_data_from_neo4j sampleStore) = csvHeader ∧
    ((load_data_from_neo4j sampleStore)[0]?.bind (fun r => List.lookup "count" r))
      = some (Value.int 7) :=
  ⟨(load_data_from_neo4j_columns sampleStore (by decide)).1,
   (load_data_from_neo4j_columns sampleStore (by decide)).2 0⟩

end NCI
